import Mathlib

/-!
VietMindAI two-tier memory subsystem — verification development.

Shallow embedding of the conversational memory subsystem of VietMindAI
(`app/services/memory_service.py`, `app/infra/db/models.py`,
`app/config/config.py`), together with theorems settling the specified
properties of that subsystem.

Modelling conventions:
* UUIDs become `Nat` identifiers; fresh ids are supplied explicitly as
  parameters (standing for `uuid.uuid4()`).
* Timestamps become `Int` (ticks; `timedelta(hours=h)` added to `now`
  becomes `now + h` with time measured in hours).
* Python `float` values (importance, similarity) become `ℚ`.
* The database session becomes an explicit `MemoryDB` state threaded through
  the operations; `session.flush`/commit effects are the returned state.
* The external Gemini providers are parameters: the embedding provider is a
  function `String → List ℚ`, the summarization provider outcome is an
  `LLMOutcome` (raised error / unparseable text / parsed insight list),
  mirroring the three branches of `_summarize_memories_with_llm`.
* SQL `ORDER BY` becomes a stable sort (`List.insertionSort`); SQL
  `DELETE ... WHERE` becomes
  `List.filter` with the negated condition, returning the row count.
-/

namespace VietMind

/-- Time in ticks; `timedelta(hours=h)` is `+ h` with hours as the unit. -/
abbrev Time := Int

/-- `app.config.config.Settings.stm_consolidation_threshold` (default 15). -/
def stm_consolidation_threshold : Nat := 15

/-- `app.config.config.Settings.stm_max_threshold` (default 20). -/
def stm_max_threshold : Nat := 20

/-- The fixed embedding dimension of the `Vector(768)` columns in
`app/infra/db/models.py`. -/
def embedding_dim : Nat := 768

/-- Row of the `users` table (`app/infra/db/models.py`, `User`). The `name`
column is taken from the `users` table of migration
`002_create_memory_tables.py` (nullable String), which the service and the
router read and write; the ORM base class module is not present in the
source tree, so the column set follows the migration. -/
structure User where
  user_id : Nat
  name : Option String
  created_at : Time
  last_interaction : Time
deriving Repr, DecidableEq

/-- Row of the `chat_history` table (`app/infra/db/models.py`,
`ChatHistory`): one short-term conversation turn. -/
structure ChatTurn where
  message_id : Nat
  user_id : Nat
  session_id : Nat
  role : String
  content : String
  turn_number : Nat
  created_at : Time
  expires_at : Option Time
deriving Repr, DecidableEq

/-- Row of the `vector_memories` table (`app/infra/db/models.py`,
`VectorMemory`): one long-term memory record. Only the columns the
verified operations touch are modelled. -/
structure VectorMemory where
  memory_id : Nat
  user_id : Nat
  content : String
  summary : String
  memory_type : String
  importance : ℚ
  embedding : List ℚ
  access_count : Nat
  last_accessed : Option Time
deriving Repr, DecidableEq

/-- The relational store visible to `MemoryService`: the three tables. -/
structure MemoryDB where
  users : List User
  chat_history : List ChatTurn
  vector_memories : List VectorMemory
deriving Repr, DecidableEq

/-- One structured insight as parsed from the summarizer's JSON output
(`type`/`content`/`summary`/`importance` keys). -/
structure Insight where
  itype : String
  content : String
  summary : String
  importance : ℚ
deriving Repr, DecidableEq

/-- Outcome of the summarization provider call inside
`_summarize_memories_with_llm`: the `generate_text_async` call raised
(`failure`), it returned text that does not parse as a JSON list
(`malformed`, covering both `json.JSONDecodeError` and the
`not isinstance(insights, list)` branch), or it parsed to a list of
insights (`insightList`). -/
inductive LLMOutcome where
  | failure
  | malformed
  | insightList (insights : List Insight)
deriving Repr, DecidableEq

/-- Result dict of `_summarize_memories_with_llm`. -/
structure SummaryResult where
  insights : List Insight
  memory_count : Nat
deriving Repr, DecidableEq

/-- Result dict of `consolidate_short_term_memories`. -/
structure ConsolidationResult where
  consolidated : Bool
  reason : String := ""
  stm_count : Nat := 0
  stm_deleted : Nat := 0
  ltm_created : Nat := 0
  forced : Bool := false
deriving Repr, DecidableEq

/-- The non-expired filter used throughout `MemoryService`:
`expires_at IS NULL OR expires_at > now`. -/
def notExpired (now : Time) (t : ChatTurn) : Bool :=
  match t.expires_at with
  | none => true
  | some e => now < e

/-- The `user_id` (and optional `session_id`) WHERE clause shared by the
short-term queries. -/
def inScope (uid : Nat) (sid? : Option Nat) (t : ChatTurn) : Bool :=
  t.user_id == uid &&
    (match sid? with
     | none => true
     | some s => t.session_id == s)

/-- A chat-history row is expired when its `expires_at` is non-null and has
passed: the DELETE condition of `cleanup_expired_memories`. -/
def isExpired (now : Time) (t : ChatTurn) : Bool :=
  match t.expires_at with
  | none => false
  | some e => e ≤ now

/-- `MemoryService.get_or_create_user`: with no id, create a user under a
fresh id; with an id that exists, touch `last_interaction` and return the
row; with an id that does not exist, create the user under exactly that id.
`freshId` stands for `uuid.uuid4()`. -/
def get_or_create_user (db : MemoryDB) (user_id? : Option Nat)
    (name : Option String) (freshId : Nat) (now : Time) : User × MemoryDB :=
  match user_id? with
  | none =>
    let u : User :=
      { user_id := freshId, name := name, created_at := now, last_interaction := now }
    (u, { db with users := db.users ++ [u] })
  | some uid =>
    match db.users.find? (fun u => u.user_id == uid) with
    | some u =>
      let u' : User := { u with last_interaction := now }
      let users' := db.users.map (fun v =>
        if v.user_id == uid then { v with last_interaction := now } else v)
      (u', { db with users := users' })
    | none =>
      let u : User :=
        { user_id := uid, name := name, created_at := now, last_interaction := now }
      (u, { db with users := db.users ++ [u] })

/-- `MemoryService.add_short_term_memory`. The expiry computation mirrors
the source exactly: `expires_at = None; if expires_in_hours: expires_at =
now + timedelta(hours=expires_in_hours)` — a Python truthiness test, so
`ttl? = some 0` leaves `expires_at` null. `freshMessageId` and
`freshSessionId` stand for the two `uuid.uuid4()` calls. -/
def add_short_term_memory (db : MemoryDB) (uid : Nat) (content : String)
    (role : String) (sid? : Option Nat) (turn_number : Nat)
    (ttl? : Option Int) (freshMessageId freshSessionId : Nat) (now : Time) :
    ChatTurn × MemoryDB :=
  let expires_at : Option Time :=
    match ttl? with
    | none => none
    | some h => if h = 0 then none else some (now + h)
  let memory : ChatTurn :=
    { message_id := freshMessageId
      user_id := uid
      session_id := sid?.getD freshSessionId
      content := content
      role := role
      turn_number := turn_number
      created_at := now
      expires_at := expires_at }
  (memory, { db with chat_history := db.chat_history ++ [memory] })

/-- `ORDER BY turn_number DESC`: `a` sorts no later than `b` when its turn
number is at least `b`'s. -/
def newestFirst (a b : ChatTurn) : Prop := b.turn_number ≤ a.turn_number

instance : DecidableRel newestFirst := fun a b =>
  inferInstanceAs (Decidable (b.turn_number ≤ a.turn_number))

/-- `ORDER BY turn_number ASC`: chronological order of turns. -/
def chronological (a b : ChatTurn) : Prop := a.turn_number ≤ b.turn_number

instance : DecidableRel chronological := fun a b =>
  inferInstanceAs (Decidable (a.turn_number ≤ b.turn_number))

/-- `ORDER BY similarity DESC` for a similarity function `sim` (the pgvector
expression `1 - (embedding <=> query_embedding)`). -/
def moreSimilar (sim : List ℚ → ℚ) (a b : VectorMemory) : Prop :=
  sim b.embedding ≤ sim a.embedding

instance (sim : List ℚ → ℚ) : DecidableRel (moreSimilar sim) := fun a b =>
  inferInstanceAs (Decidable (sim b.embedding ≤ sim a.embedding))

/-- `MemoryService.get_short_term_memories`: non-expired rows in scope,
ordered by `turn_number DESC`, capped at `limit`. -/
def get_short_term_memories (db : MemoryDB) (uid : Nat) (sid? : Option Nat)
    (limit : Nat) (now : Time) : List ChatTurn :=
  (List.insertionSort newestFirst
    (db.chat_history.filter (fun t => inScope uid sid? t && notExpired now t))).take limit

/-- `MemoryService.count_short_term_memories`: `COUNT(*)` over the same
non-expired, in-scope rows. -/
def count_short_term_memories (db : MemoryDB) (uid : Nat) (sid? : Option Nat)
    (now : Time) : Nat :=
  (db.chat_history.filter (fun t => inScope uid sid? t && notExpired now t)).length

/-- Clamp to `[0, 1]`: the `max(0.0, min(1.0, importance))` of
`add_long_term_memory`. -/
def clamp01 (x : ℚ) : ℚ := max 0 (min 1 x)

/-- `MemoryService.add_long_term_memory`. The embedding is the output of the
embedding provider for `content`, passed in explicitly. The `flush` is where
the `Vector(768)` column of `VectorMemory.embedding` is enforced: the
pgvector binding rejects a vector whose length differs from the declared
dimension before the INSERT is issued, so a mismatched embedding raises and
nothing is persisted; a valid one appends the row. -/
def add_long_term_memory (db : MemoryDB) (uid : Nat) (content : String)
    (memory_type : String) (summary : String) (importance : ℚ)
    (embedding : List ℚ) (freshId : Nat) : Except String (VectorMemory × MemoryDB) :=
  let memory : VectorMemory :=
    { memory_id := freshId
      user_id := uid
      content := content
      memory_type := memory_type
      summary := summary
      importance := clamp01 importance
      embedding := embedding
      access_count := 0
      last_accessed := none }
  if embedding.length = embedding_dim then
    Except.ok (memory, { db with vector_memories := db.vector_memories ++ [memory] })
  else
    Except.error "DimensionMismatch"

/-- The access bookkeeping applied to each row returned by
`search_long_term_memories`: `access_count += 1; last_accessed = now`. -/
def bumpAccess (now : Time) (m : VectorMemory) : VectorMemory :=
  { m with access_count := m.access_count + 1, last_accessed := some now }

/-- `MemoryService.search_long_term_memories`. `sim e` stands for the SQL
expression `1 - (e <=> query_embedding)` computed by pgvector for the fixed
query embedding — an external similarity primitive, so it is a parameter.
Rows of the user meeting the importance floor are ordered by similarity
descending and capped at `limit`; every returned row then has its
`access_count` incremented and `last_accessed` set to `now` in the same
unit of work, and the mutated rows are returned paired with their
similarity. The row selection (`SELECT ... ORDER BY similarity DESC LIMIT
limit`) is split out as `searchRows`. -/
def searchRows (db : MemoryDB) (uid : Nat) (sim : List ℚ → ℚ)
    (min_importance : ℚ) (limit : Nat) : List VectorMemory :=
  (List.insertionSort (moreSimilar sim)
    (db.vector_memories.filter
      (fun m => m.user_id == uid && decide (min_importance ≤ m.importance)))).take limit

/-- The full `MemoryService.search_long_term_memories`: the selected rows
are bumped and returned with their similarity, and the bump is written back
to the table. -/
def search_long_term_memories (db : MemoryDB) (uid : Nat) (sim : List ℚ → ℚ)
    (min_importance : ℚ) (limit : Nat) (now : Time) :
    List (VectorMemory × ℚ) × MemoryDB :=
  let rows := searchRows db uid sim min_importance limit
  let retIds := rows.map (fun m => m.memory_id)
  let results := rows.map (fun m => (bumpAccess now m, sim m.embedding))
  let table := db.vector_memories.map (fun m =>
    if retIds.contains m.memory_id then bumpAccess now m else m)
  (results, { db with vector_memories := table })

/-- `MemoryService.cleanup_expired_memories`: delete every chat-history row
whose non-null `expires_at` has passed; return the deleted row count. -/
def cleanup_expired_memories (db : MemoryDB) (now : Time) : Nat × MemoryDB :=
  ((db.chat_history.filter (isExpired now)).length,
   { db with chat_history := db.chat_history.filter (fun t => ! isExpired now t) })

/-- The context dict built by `get_conversation_context`: recent turns in
chronological order and scored long-term memories. -/
structure ContextBundle where
  short_term : List ChatTurn
  long_term : List (VectorMemory × ℚ)
deriving Repr, DecidableEq

/-- `MemoryService.get_conversation_context`: fetch the recent short-term
turns (newest first) and reverse them into chronological order; search the
long-term memories with importance floor `0.3`; the search's access
bookkeeping is the returned state. -/
def get_conversation_context (db : MemoryDB) (uid : Nat) (sim : List ℚ → ℚ)
    (sid? : Option Nat) (short_term_limit : Nat := 5) (long_term_limit : Nat := 3)
    (now : Time := 0) : ContextBundle × MemoryDB :=
  let recent := get_short_term_memories db uid sid? short_term_limit now
  let searched := search_long_term_memories db uid sim (3 / 10) long_term_limit now
  ({ short_term := recent.reverse, long_term := searched.1 }, searched.2)

/-- `MemoryService._summarize_memories_with_llm`: the provider call is
wrapped so that a raised error or unparseable output yields zero insights
(`insights = []`) instead of propagating; a parsed list is returned as is.
The prompt construction (turns joined in ascending `turn_number` order) does
not affect the result structure and is not modelled. -/
def summarize_memories_with_llm (memories : List ChatTurn)
    (outcome : LLMOutcome) : SummaryResult :=
  match outcome with
  | LLMOutcome.failure => { insights := [], memory_count := memories.length }
  | LLMOutcome.malformed => { insights := [], memory_count := memories.length }
  | LLMOutcome.insightList l => { insights := l, memory_count := memories.length }

/-- One step of the insight loop in `consolidate_short_term_memories`: try
to create a long-term memory from the insight; on failure log and
`continue` (state unchanged). The accumulator carries the number created so
far, used also to index the fresh-id supply. -/
def consolidateInsightStep (uid : Nat) (embed : String → List ℚ)
    (freshIds : Nat → Nat) (acc : Nat × MemoryDB) (insight : Insight) :
    Nat × MemoryDB :=
  match add_long_term_memory acc.2 uid insight.content insight.itype
      insight.summary insight.importance (embed insight.content)
      (freshIds acc.1) with
  | Except.ok (_, db') => (acc.1 + 1, db')
  | Except.error _ => (acc.1, acc.2)

/-- The snapshot read by `consolidate_short_term_memories`: all in-scope
non-expired turns, ordered by `turn_number ASC`. -/
def consolidationSnapshot (db : MemoryDB) (uid : Nat) (sid? : Option Nat)
    (now : Time) : List ChatTurn :=
  List.insertionSort chronological
    (db.chat_history.filter (fun t => inScope uid sid? t && notExpired now t))

/-- `MemoryService.consolidate_short_term_memories`. Below the threshold
(unless forced) nothing happens. Otherwise the in-scope non-expired turns
are read as a snapshot in ascending `turn_number` order, summarized, each
insight inserted as a long-term memory (failures skipped), and then exactly
the snapshot is deleted by its `message_id`s:
`DELETE FROM chat_history WHERE message_id IN (snapshot ids)`.
`appended` are rows committed to `chat_history` by concurrent requests
between the snapshot read and the delete (empty for a sequential run): the
delete statement runs against the table extended with them, and removes
only rows whose id is in the snapshot. -/
def consolidate_short_term_memories (db : MemoryDB) (uid : Nat)
    (sid? : Option Nat) (force : Bool) (outcome : LLMOutcome)
    (embed : String → List ℚ) (freshIds : Nat → Nat)
    (appended : List ChatTurn) (now : Time) : ConsolidationResult × MemoryDB :=
  let stm_count := count_short_term_memories db uid sid? now
  let should_consolidate := force || decide (stm_consolidation_threshold ≤ stm_count)
  if should_consolidate = false then
    ({ consolidated := false, reason := "Below threshold", stm_count := stm_count }, db)
  else
    let memories := consolidationSnapshot db uid sid? now
    if memories.isEmpty then
      ({ consolidated := false, reason := "No memories to consolidate", stm_count := 0 }, db)
    else
      let summary_result := summarize_memories_with_llm memories outcome
      let insights := summary_result.insights
      let created := insights.foldl (consolidateInsightStep uid embed freshIds) (0, db)
      let snapshotIds := memories.map (fun t => t.message_id)
      let table := created.2.chat_history ++ appended
      let deleted := (table.filter (fun t => snapshotIds.contains t.message_id)).length
      let remaining := table.filter (fun t => ! snapshotIds.contains t.message_id)
      ({ consolidated := true, stm_deleted := deleted, ltm_created := created.1,
         forced := force },
       { created.2 with chat_history := remaining })

/-- `MemoryService.check_and_consolidate`: at or above the hard threshold
(20) force consolidation; at or above the soft threshold (15) consolidate
without forcing; below both, do nothing and return `None`. -/
def check_and_consolidate (db : MemoryDB) (uid : Nat) (sid? : Option Nat)
    (outcome : LLMOutcome) (embed : String → List ℚ) (freshIds : Nat → Nat)
    (now : Time) : Option ConsolidationResult × MemoryDB :=
  let stm_count := count_short_term_memories db uid sid? now
  if stm_max_threshold ≤ stm_count then
    let r := consolidate_short_term_memories db uid sid? true outcome embed freshIds [] now
    (some r.1, r.2)
  else if stm_consolidation_threshold ≤ stm_count then
    let r := consolidate_short_term_memories db uid sid? false outcome embed freshIds [] now
    (some r.1, r.2)
  else
    (none, db)

/-! Concrete sample data used by the witness theorems. -/

/-- An empty store. -/
def emptyDB : MemoryDB := { users := [], chat_history := [], vector_memories := [] }

/-- A permanent sample turn for user 1, session 2, with `message_id` and
`turn_number` both `i`. -/
def sampleTurn (i : Nat) : ChatTurn :=
  { message_id := i, user_id := 1, session_id := 2, role := "user",
    content := "hello", turn_number := i, created_at := 0, expires_at := none }

/-- A store holding `n` permanent turns for user 1, session 2. -/
def sampleDB (n : Nat) : MemoryDB :=
  { users := [], chat_history := (List.range n).map sampleTurn, vector_memories := [] }

/-- A sample stored user for the claim C10 witness. -/
def sampleUser : User :=
  { user_id := 5, name := some "an", created_at := 0, last_interaction := 0 }

/-- A store containing exactly `sampleUser`. -/
def userDB : MemoryDB := { users := [sampleUser], chat_history := [], vector_memories := [] }

/-- A sample long-term memory with id `i` and importance `imp`. -/
def sampleMemory (i : Nat) (imp : ℚ) : VectorMemory :=
  { memory_id := i, user_id := 1, content := "m", summary := "",
    memory_type := "general", importance := imp,
    embedding := List.replicate 768 0, access_count := 0, last_accessed := none }

/-- A store with two long-term memories of user 1 (importances 9/10 and
1/10). -/
def vectorDB : MemoryDB :=
  { users := [], chat_history := [],
    vector_memories := [sampleMemory 1 (9 / 10), sampleMemory 2 (1 / 10)] }

instance : IsTotal ChatTurn newestFirst :=
  ⟨fun a b => Nat.le_total b.turn_number a.turn_number⟩

instance : IsTrans ChatTurn newestFirst :=
  ⟨fun _ _ _ h1 h2 => Nat.le_trans h2 h1⟩

/-! Claim theorems. -/

/-- Claim C4: for every embedding whose length differs from the configured
dimension 768, adding a long-term memory fails with a dimension-mismatch
error and no record is persisted (the error carries no updated store, so
the caller's store is unchanged). -/
theorem add_long_term_memory_rejects_dimension_mismatch
    (db : MemoryDB) (uid : Nat) (content memory_type summary : String)
    (importance : ℚ) (embedding : List ℚ) (freshId : Nat)
    (hdim : embedding.length ≠ embedding_dim) :
    add_long_term_memory db uid content memory_type summary importance embedding freshId
      = Except.error "DimensionMismatch" := by
  simp [add_long_term_memory, hdim]

/-- Claim C4, witness: a 2-dimensional embedding is rejected. -/
theorem add_long_term_memory_rejects_dimension_mismatch_witness :
    add_long_term_memory emptyDB 1 "c" "general" "s" (1 / 2) [0, 0] 7
      = Except.error "DimensionMismatch" :=
  add_long_term_memory_rejects_dimension_mismatch emptyDB 1 "c" "general" "s" (1 / 2)
    [0, 0] 7 (by decide)

/-- Claim C5: for every importance value, `add_long_term_memory` succeeds
(given a well-dimensioned embedding) and stores importance
`max 0 (min 1 importance)`; in-range values are stored unchanged. -/
theorem add_long_term_memory_clamps_importance
    (db : MemoryDB) (uid : Nat) (content memory_type summary : String)
    (importance : ℚ) (embedding : List ℚ) (freshId : Nat)
    (hdim : embedding.length = embedding_dim) :
    ∃ m db',
      add_long_term_memory db uid content memory_type summary importance embedding freshId
        = Except.ok (m, db') ∧
      db'.vector_memories = db.vector_memories ++ [m] ∧
      m.importance = max 0 (min 1 importance) ∧
      (0 ≤ importance → importance ≤ 1 → m.importance = importance) := by
  have hres : add_long_term_memory db uid content memory_type summary importance embedding freshId
      = Except.ok
        (⟨freshId, uid, content, summary, memory_type, clamp01 importance, embedding, 0, none⟩,
         { db with vector_memories := db.vector_memories
            ++ [⟨freshId, uid, content, summary, memory_type, clamp01 importance,
                 embedding, 0, none⟩] }) := by
    simp [add_long_term_memory, hdim]
  refine ⟨_, _, hres, rfl, rfl, ?_⟩
  intro h0 h1
  simp [clamp01, min_eq_right h1, max_eq_right h0]

/-- Claim C5, witness: importance `3/2` is clamped to `1`; importance `1/2`
is stored unchanged. -/
theorem add_long_term_memory_clamps_importance_witness :
    (∃ m db',
      add_long_term_memory emptyDB 1 "c" "general" "s" (3 / 2) (List.replicate 768 0) 7
        = Except.ok (m, db') ∧
      db'.vector_memories = emptyDB.vector_memories ++ [m] ∧
      m.importance = max 0 (min 1 (3 / 2)) ∧
      (0 ≤ (3 / 2 : ℚ) → (3 / 2 : ℚ) ≤ 1 → m.importance = 3 / 2)) ∧
    (∃ m db',
      add_long_term_memory emptyDB 1 "c" "general" "s" (1 / 2) (List.replicate 768 0) 7
        = Except.ok (m, db') ∧
      db'.vector_memories = emptyDB.vector_memories ++ [m] ∧
      m.importance = max 0 (min 1 (1 / 2)) ∧
      (0 ≤ (1 / 2 : ℚ) → (1 / 2 : ℚ) ≤ 1 → m.importance = 1 / 2)) :=
  ⟨add_long_term_memory_clamps_importance emptyDB 1 "c" "general" "s" (3 / 2)
      (List.replicate 768 0) 7 (by rw [List.length_replicate]; rfl),
   add_long_term_memory_clamps_importance emptyDB 1 "c" "general" "s" (1 / 2)
      (List.replicate 768 0) 7 (by rw [List.length_replicate]; rfl)⟩

/-- Claim C8, counterexample: with a provided ttl of `0` hours the created
turn is permanent (`expires_at = none`), not expired at `now + 0` as the
claim states. -/
theorem add_short_term_memory_zero_ttl_counterexample :
    (add_short_term_memory emptyDB 1 "hi" "user" (some 2) 0 (some 0) 10 11 100).1.expires_at
      = none ∧
    ¬ (add_short_term_memory emptyDB 1 "hi" "user" (some 2) 0 (some 0) 10 11 100).1.expires_at
      = some (100 + 0) := by
  constructor <;> decide

/-- Claim C8, amended: for every provided nonzero ttl the created turn's
`expires_at` equals `now + ttl`; when the ttl is absent or zero the turn is
permanent (`expires_at` null, never auto-expired); the turn is appended to
the chat history either way. -/
theorem add_short_term_memory_ttl_semantics
    (db : MemoryDB) (uid : Nat) (content role : String) (sid? : Option Nat)
    (turn_number : Nat) (ttl? : Option Int) (freshMessageId freshSessionId : Nat)
    (now : Time) :
    (∀ h : Int, ttl? = some h → h ≠ 0 →
      (add_short_term_memory db uid content role sid? turn_number ttl?
          freshMessageId freshSessionId now).1.expires_at = some (now + h)) ∧
    ((ttl? = none ∨ ttl? = some 0) →
      (add_short_term_memory db uid content role sid? turn_number ttl?
          freshMessageId freshSessionId now).1.expires_at = none) ∧
    ((add_short_term_memory db uid content role sid? turn_number ttl?
        freshMessageId freshSessionId now).1.expires_at = none →
      ∀ t : Time, notExpired t
        (add_short_term_memory db uid content role sid? turn_number ttl?
          freshMessageId freshSessionId now).1 = true) ∧
    (add_short_term_memory db uid content role sid? turn_number ttl?
        freshMessageId freshSessionId now).2.chat_history
      = db.chat_history
        ++ [(add_short_term_memory db uid content role sid? turn_number ttl?
              freshMessageId freshSessionId now).1] := by
  refine ⟨?_, ?_, ?_, rfl⟩
  · rintro h rfl hne
    show (if h = 0 then none else some (now + h) : Option Time) = some (now + h)
    rw [if_neg hne]
  · rintro (rfl | rfl)
    · rfl
    · show (if (0 : Int) = 0 then none else some (now + 0) : Option Time) = none
      rw [if_pos rfl]
  · intro hnone t
    simp [notExpired, hnone]

/-- Claim C8, witness for the amended claim: ttl 24 expires at `100 + 24`,
absent ttl is permanent. -/
theorem add_short_term_memory_ttl_semantics_witness :
    (add_short_term_memory emptyDB 1 "hi" "user" (some 2) 0 (some 24) 10 11 100).1.expires_at
      = some (100 + 24) ∧
    (add_short_term_memory emptyDB 1 "hi" "user" (some 2) 0 none 10 11 100).1.expires_at
      = none :=
  ⟨(add_short_term_memory_ttl_semantics emptyDB 1 "hi" "user" (some 2) 0 (some 24)
      10 11 100).1 24 rfl (by decide),
   (add_short_term_memory_ttl_semantics emptyDB 1 "hi" "user" (some 2) 0 none
      10 11 100).2.1 (Or.inl rfl)⟩

/-- Filtering a list by a predicate and by its negation partitions its
length. -/
lemma length_filter_add_length_filter_not {α : Type} (p : α → Bool) (l : List α) :
    (l.filter p).length + (l.filter (fun a => ! p a)).length = l.length := by
  induction l with
  | nil => rfl
  | cons a l ih =>
    cases h : p a <;> simp [List.filter_cons, h] <;> omega

/-- Claim C9: `cleanup_expired_memories` deletes exactly the turns whose
non-null `expires_at` has passed and returns their count (deleted plus
surviving rows partition the table); running it again at a later time at
which no surviving turn has newly expired returns 0 and changes nothing. -/
theorem cleanup_expired_memories_idempotent
    (db : MemoryDB) (now now2 : Time)
    (hnonew : ∀ t ∈ db.chat_history, isExpired now2 t = true → isExpired now t = true) :
    (∀ t, t ∈ (cleanup_expired_memories db now).2.chat_history ↔
      t ∈ db.chat_history ∧ isExpired now t = false) ∧
    (cleanup_expired_memories db now).1
        + (cleanup_expired_memories db now).2.chat_history.length
      = db.chat_history.length ∧
    cleanup_expired_memories (cleanup_expired_memories db now).2 now2
      = (0, (cleanup_expired_memories db now).2) := by
  refine ⟨?_, ?_, ?_⟩
  · intro t
    simp [cleanup_expired_memories, List.mem_filter]
  · exact length_filter_add_length_filter_not (isExpired now) db.chat_history
  · have hall : ∀ t ∈ (cleanup_expired_memories db now).2.chat_history,
        isExpired now2 t = false := by
      intro t ht
      rcases List.mem_filter.1 ht with ⟨htl, hpt⟩
      cases hval : isExpired now2 t
      · rfl
      · have := hnonew t htl hval
        rw [this] at hpt
        exact absurd hpt (by decide)
    have h1 : (cleanup_expired_memories db now).2.chat_history.filter (isExpired now2)
        = [] :=
      List.filter_eq_nil_iff.2 (fun a ha => by simp [hall a ha])
    have h2 : (cleanup_expired_memories db now).2.chat_history.filter
          (fun t => ! isExpired now2 t)
        = (cleanup_expired_memories db now).2.chat_history :=
      List.filter_eq_self.2 (fun a ha => by simp [hall a ha])
    have hstep : cleanup_expired_memories (cleanup_expired_memories db now).2 now2
        = (((cleanup_expired_memories db now).2.chat_history.filter (isExpired now2)).length,
           { (cleanup_expired_memories db now).2 with
              chat_history := (cleanup_expired_memories db now).2.chat_history.filter
                (fun t => ! isExpired now2 t) }) := rfl
    rw [hstep, h1, h2]
    rfl

/-- Claim C9, witness: a store with one expired and one live turn at time
10; the sweep removes the expired turn, and a second sweep at time 20 (the
live turn expires at 30, so nothing newly expires) removes nothing. -/
theorem cleanup_expired_memories_idempotent_witness :
    (∀ t, t ∈ (cleanup_expired_memories
        { users := [], vector_memories := [],
          chat_history := [{ sampleTurn 0 with expires_at := some 5 },
                           { sampleTurn 1 with expires_at := some 30 }] } 10).2.chat_history ↔
      t ∈ [{ sampleTurn 0 with expires_at := some 5 },
           { sampleTurn 1 with expires_at := some 30 }] ∧ isExpired 10 t = false) ∧
    (cleanup_expired_memories
        { users := [], vector_memories := [],
          chat_history := [{ sampleTurn 0 with expires_at := some 5 },
                           { sampleTurn 1 with expires_at := some 30 }] } 10).1
        + (cleanup_expired_memories
        { users := [], vector_memories := [],
          chat_history := [{ sampleTurn 0 with expires_at := some 5 },
                           { sampleTurn 1 with expires_at := some 30 }] } 10).2.chat_history.length
      = 2 ∧
    cleanup_expired_memories (cleanup_expired_memories
        { users := [], vector_memories := [],
          chat_history := [{ sampleTurn 0 with expires_at := some 5 },
                           { sampleTurn 1 with expires_at := some 30 }] } 10).2 20
      = (0, (cleanup_expired_memories
        { users := [], vector_memories := [],
          chat_history := [{ sampleTurn 0 with expires_at := some 5 },
                           { sampleTurn 1 with expires_at := some 30 }] } 10).2) :=
  cleanup_expired_memories_idempotent
    { users := [], vector_memories := [],
      chat_history := [{ sampleTurn 0 with expires_at := some 5 },
                       { sampleTurn 1 with expires_at := some 30 }] } 10 20 (by decide)

/-- Claim C10: `get_or_create_user` is total and never reports a missing
user: with no id it creates and returns a user under the fresh id; with an
id that exists it returns that row with `last_interaction` set to `now` and
every other field unchanged; with an id that does not exist it creates and
returns a user whose id is exactly the supplied one. -/
theorem get_or_create_user_total
    (db : MemoryDB) (uid : Nat) (name : Option String) (freshId : Nat) (now : Time) :
    ((get_or_create_user db none name freshId now).1.user_id = freshId ∧
     (get_or_create_user db none name freshId now).1
       ∈ (get_or_create_user db none name freshId now).2.users) ∧
    (∀ u, db.users.find? (fun v => v.user_id == uid) = some u →
      (get_or_create_user db (some uid) name freshId now).1
        = { u with last_interaction := now }) ∧
    (db.users.find? (fun v => v.user_id == uid) = none →
      (get_or_create_user db (some uid) name freshId now).1.user_id = uid ∧
      (get_or_create_user db (some uid) name freshId now).1
        ∈ (get_or_create_user db (some uid) name freshId now).2.users) := by
  refine ⟨⟨rfl, ?_⟩, ?_, ?_⟩
  · simp [get_or_create_user]
  · intro u hu
    simp [get_or_create_user, hu]
  · intro hnone
    simp [get_or_create_user, hnone]

/-- Claim C10, witness: looking up the stored user 5 returns it with
`last_interaction` touched; looking up the missing id 6 creates user 6; a
call without an id creates a user under the fresh id 9. -/
theorem get_or_create_user_total_witness :
    (get_or_create_user userDB (some 5) none 9 42).1
      = { sampleUser with last_interaction := 42 } ∧
    (get_or_create_user userDB (some 6) none 9 42).1.user_id = 6 ∧
    (get_or_create_user userDB none none 9 42).1.user_id = 9 :=
  ⟨(get_or_create_user_total userDB 5 none 9 42).2.1 sampleUser (by rfl),
   ((get_or_create_user_total userDB 6 none 9 42).2.2 (by rfl)).1,
   (get_or_create_user_total userDB 6 none 9 42).1.1⟩

/-- Creating a long-term memory from one insight never touches the chat
history (whether the insert succeeds or is skipped). -/
lemma consolidateInsightStep_chat_history (uid : Nat) (embed : String → List ℚ)
    (freshIds : Nat → Nat) (acc : Nat × MemoryDB) (insight : Insight) :
    (consolidateInsightStep uid embed freshIds acc insight).2.chat_history
      = acc.2.chat_history := by
  by_cases hc : (embed insight.content).length = embedding_dim <;>
    simp [consolidateInsightStep, add_long_term_memory, hc]

/-- The insight loop of consolidation never touches the chat history. -/
lemma foldl_insight_chat_history (uid : Nat) (embed : String → List ℚ)
    (freshIds : Nat → Nat) (insights : List Insight) (acc : Nat × MemoryDB) :
    (insights.foldl (consolidateInsightStep uid embed freshIds) acc).2.chat_history
      = acc.2.chat_history := by
  induction insights generalizing acc with
  | nil => rfl
  | cons i is ih =>
    rw [List.foldl_cons, ih, consolidateInsightStep_chat_history]

/-- The consolidation snapshot has exactly as many rows as the short-term
count reports. -/
lemma consolidationSnapshot_length (db : MemoryDB) (uid : Nat) (sid? : Option Nat)
    (now : Time) :
    (consolidationSnapshot db uid sid? now).length
      = count_short_term_memories db uid sid? now :=
  (List.perm_insertionSort _ _).length_eq

/-- Unfolding of the success path of `consolidate_short_term_memories`:
forced or above threshold, with a nonempty snapshot, the run summarizes the
snapshot, inserts the insights, and deletes exactly the snapshot ids from
the table extended with any concurrently appended rows. -/
lemma consolidate_success_eq (db : MemoryDB) (uid : Nat) (sid? : Option Nat)
    (force : Bool) (outcome : LLMOutcome) (embed : String → List ℚ)
    (freshIds : Nat → Nat) (appended : List ChatTurn) (now : Time)
    (hshould : force = true ∨
      stm_consolidation_threshold ≤ count_short_term_memories db uid sid? now)
    (hne : consolidationSnapshot db uid sid? now ≠ []) :
    consolidate_short_term_memories db uid sid? force outcome embed freshIds appended now
      = ({ consolidated := true,
           stm_deleted := ((((summarize_memories_with_llm
               (consolidationSnapshot db uid sid? now) outcome).insights.foldl
                 (consolidateInsightStep uid embed freshIds) (0, db)).2.chat_history
               ++ appended).filter
             (fun t => ((consolidationSnapshot db uid sid? now).map
               (fun s => s.message_id)).contains t.message_id)).length,
           ltm_created := ((summarize_memories_with_llm
               (consolidationSnapshot db uid sid? now) outcome).insights.foldl
                 (consolidateInsightStep uid embed freshIds) (0, db)).1,
           forced := force },
         { ((summarize_memories_with_llm
               (consolidationSnapshot db uid sid? now) outcome).insights.foldl
                 (consolidateInsightStep uid embed freshIds) (0, db)).2 with
            chat_history := (((summarize_memories_with_llm
               (consolidationSnapshot db uid sid? now) outcome).insights.foldl
                 (consolidateInsightStep uid embed freshIds) (0, db)).2.chat_history
               ++ appended).filter
             (fun t => ! ((consolidationSnapshot db uid sid? now).map
               (fun s => s.message_id)).contains t.message_id) }) := by
  have hs : (force
      || decide (stm_consolidation_threshold ≤ count_short_term_memories db uid sid? now))
      = true := by
    rcases hshould with h | h
    · simp [h]
    · simp [h]
  have hemp : (consolidationSnapshot db uid sid? now).isEmpty = false := by
    cases hsnap : consolidationSnapshot db uid sid? now
    · exact absurd hsnap hne
    · rfl
  simp [consolidate_short_term_memories, hs, hemp]

/-- On the success path, the run reports `consolidated := true` and echoes
the `force` flag. -/
lemma consolidate_success_fields (db : MemoryDB) (uid : Nat) (sid? : Option Nat)
    (force : Bool) (outcome : LLMOutcome) (embed : String → List ℚ)
    (freshIds : Nat → Nat) (appended : List ChatTurn) (now : Time)
    (hshould : force = true ∨
      stm_consolidation_threshold ≤ count_short_term_memories db uid sid? now)
    (hne : consolidationSnapshot db uid sid? now ≠ []) :
    (consolidate_short_term_memories db uid sid? force outcome embed
        freshIds appended now).1.consolidated = true ∧
    (consolidate_short_term_memories db uid sid? force outcome embed
        freshIds appended now).1.forced = force := by
  rw [consolidate_success_eq db uid sid? force outcome embed freshIds appended now
    hshould hne]
  exact ⟨rfl, rfl⟩

/-- Claim C3: on the success path, consolidation deletes exactly the turns
of the snapshot it read (identified by `message_id`), and any turn
appended concurrently after the snapshot read — whose id is therefore not
among the snapshot ids — survives the run unchanged. -/
theorem consolidation_deletes_exactly_snapshot
    (db : MemoryDB) (uid : Nat) (sid? : Option Nat) (force : Bool)
    (outcome : LLMOutcome) (embed : String → List ℚ) (freshIds : Nat → Nat)
    (appended : List ChatTurn) (now : Time)
    (hshould : force = true ∨
      stm_consolidation_threshold ≤ count_short_term_memories db uid sid? now)
    (hne : consolidationSnapshot db uid sid? now ≠ []) :
    (consolidate_short_term_memories db uid sid? force outcome embed
        freshIds appended now).2.chat_history
      = (db.chat_history ++ appended).filter
          (fun t => ! ((consolidationSnapshot db uid sid? now).map
            (fun s => s.message_id)).contains t.message_id) ∧
    (∀ t ∈ consolidationSnapshot db uid sid? now,
      t ∉ (consolidate_short_term_memories db uid sid? force outcome embed
        freshIds appended now).2.chat_history) ∧
    (∀ t ∈ appended,
      t.message_id ∉ (consolidationSnapshot db uid sid? now).map (fun s => s.message_id) →
      t ∈ (consolidate_short_term_memories db uid sid? force outcome embed
        freshIds appended now).2.chat_history) := by
  have hch : (consolidate_short_term_memories db uid sid? force outcome embed
      freshIds appended now).2.chat_history
      = (db.chat_history ++ appended).filter
          (fun t => ! ((consolidationSnapshot db uid sid? now).map
            (fun s => s.message_id)).contains t.message_id) := by
    rw [consolidate_success_eq db uid sid? force outcome embed freshIds appended now
      hshould hne, foldl_insight_chat_history]
  refine ⟨hch, ?_, ?_⟩
  · intro t ht hmem
    rw [hch] at hmem
    rcases List.mem_filter.1 hmem with ⟨-, hpt⟩
    have hid : t.message_id ∈ (consolidationSnapshot db uid sid? now).map
        (fun s => s.message_id) := List.mem_map_of_mem _ ht
    simp [hid] at hpt
  · intro t ht hid
    rw [hch]
    refine List.mem_filter.2 ⟨List.mem_append_right _ ht, ?_⟩
    simp [hid]

/-- Claim C3, witness: a forced run over one snapshot turn with one
concurrently appended turn (fresh id 99): the snapshot turn is deleted and
the appended turn survives. -/
theorem consolidation_deletes_exactly_snapshot_witness :
    (consolidate_short_term_memories (sampleDB 1) 1 none true
        (LLMOutcome.insightList []) (fun _ => []) (fun n => n)
        [sampleTurn 99] 0).2.chat_history
      = ((sampleDB 1).chat_history ++ [sampleTurn 99]).filter
          (fun t => ! ((consolidationSnapshot (sampleDB 1) 1 none 0).map
            (fun s => s.message_id)).contains t.message_id) ∧
    (∀ t ∈ consolidationSnapshot (sampleDB 1) 1 none 0,
      t ∉ (consolidate_short_term_memories (sampleDB 1) 1 none true
        (LLMOutcome.insightList []) (fun _ => []) (fun n => n)
        [sampleTurn 99] 0).2.chat_history) ∧
    (∀ t ∈ [sampleTurn 99],
      t.message_id ∉ (consolidationSnapshot (sampleDB 1) 1 none 0).map
        (fun s => s.message_id) →
      t ∈ (consolidate_short_term_memories (sampleDB 1) 1 none true
        (LLMOutcome.insightList []) (fun _ => []) (fun n => n)
        [sampleTurn 99] 0).2.chat_history) :=
  consolidation_deletes_exactly_snapshot (sampleDB 1) 1 none true
    (LLMOutcome.insightList []) (fun _ => []) (fun n => n) [sampleTurn 99] 0
    (Or.inl rfl) (by decide)

/-- Claim C1: evaluation of consolidation at the failing input — user 1
holds 15 permanent short-term turns and the summarization provider raises
(`failure`) or returns unparseable output (`malformed`). The run completes
without raising and creates zero long-term memories, but reports success
and still deletes all 15 snapshot turns: the chat-history set is not
unchanged, contrary to the claim. -/
theorem consolidation_provider_failure_still_deletes :
    ((consolidate_short_term_memories (sampleDB 15) 1 none false LLMOutcome.failure
        (fun _ => []) (fun n => n) [] 0).1.consolidated = true ∧
     (consolidate_short_term_memories (sampleDB 15) 1 none false LLMOutcome.failure
        (fun _ => []) (fun n => n) [] 0).1.ltm_created = 0 ∧
     (consolidate_short_term_memories (sampleDB 15) 1 none false LLMOutcome.failure
        (fun _ => []) (fun n => n) [] 0).1.stm_deleted = 15 ∧
     (consolidate_short_term_memories (sampleDB 15) 1 none false LLMOutcome.failure
        (fun _ => []) (fun n => n) [] 0).2.chat_history = []) ∧
    (consolidate_short_term_memories (sampleDB 15) 1 none false LLMOutcome.malformed
        (fun _ => []) (fun n => n) [] 0).2.chat_history = [] := by
  decide

/-- Claim C2: with exactly 14 in-scope non-expired turns,
`check_and_consolidate` does nothing; with exactly 15 it consolidates
without forcing; with 20 or more it consolidates with `force := true`. -/
theorem check_and_consolidate_thresholds
    (db : MemoryDB) (uid : Nat) (sid? : Option Nat) (outcome : LLMOutcome)
    (embed : String → List ℚ) (freshIds : Nat → Nat) (now : Time) :
    (count_short_term_memories db uid sid? now = 14 →
      check_and_consolidate db uid sid? outcome embed freshIds now = (none, db)) ∧
    (count_short_term_memories db uid sid? now = 15 →
      ∃ r db', check_and_consolidate db uid sid? outcome embed freshIds now
          = (some r, db') ∧ r.consolidated = true ∧ r.forced = false) ∧
    (20 ≤ count_short_term_memories db uid sid? now →
      ∃ r db', check_and_consolidate db uid sid? outcome embed freshIds now
          = (some r, db') ∧ r.consolidated = true ∧ r.forced = true) := by
  refine ⟨?_, ?_, ?_⟩
  · intro h
    simp only [check_and_consolidate, h]
    rw [if_neg (by decide), if_neg (by decide)]
  · intro h
    have hne : consolidationSnapshot db uid sid? now ≠ [] := by
      intro hcon
      have hl := consolidationSnapshot_length db uid sid? now
      rw [hcon, h] at hl
      exact absurd hl (by decide)
    have hfields := consolidate_success_fields db uid sid? false outcome embed
      freshIds [] now (Or.inr (by rw [h]; decide)) hne
    refine ⟨(consolidate_short_term_memories db uid sid? false outcome embed
        freshIds [] now).1,
      (consolidate_short_term_memories db uid sid? false outcome embed
        freshIds [] now).2, ?_, hfields.1, hfields.2⟩
    simp only [check_and_consolidate, h]
    rw [if_neg (by decide), if_pos (by decide)]
  · intro h
    have hforce : stm_max_threshold ≤ count_short_term_memories db uid sid? now := h
    have hne : consolidationSnapshot db uid sid? now ≠ [] := by
      intro hcon
      have hl := consolidationSnapshot_length db uid sid? now
      rw [hcon] at hl
      simp at hl
      omega
    have hfields := consolidate_success_fields db uid sid? true outcome embed
      freshIds [] now (Or.inl rfl) hne
    refine ⟨(consolidate_short_term_memories db uid sid? true outcome embed
        freshIds [] now).1,
      (consolidate_short_term_memories db uid sid? true outcome embed
        freshIds [] now).2, ?_, hfields.1, hfields.2⟩
    simp only [check_and_consolidate]
    rw [if_pos hforce]

/-- Claim C2, witness: stores with 14, 15 and 20 permanent turns for user 1
exercise the three threshold branches. -/
theorem check_and_consolidate_thresholds_witness :
    check_and_consolidate (sampleDB 14) 1 none (LLMOutcome.insightList [])
        (fun _ => []) (fun n => n) 0 = (none, sampleDB 14) ∧
    (∃ r db', check_and_consolidate (sampleDB 15) 1 none (LLMOutcome.insightList [])
        (fun _ => []) (fun n => n) 0
        = (some r, db') ∧ r.consolidated = true ∧ r.forced = false) ∧
    (∃ r db', check_and_consolidate (sampleDB 20) 1 none (LLMOutcome.insightList [])
        (fun _ => []) (fun n => n) 0
        = (some r, db') ∧ r.consolidated = true ∧ r.forced = true) :=
  ⟨(check_and_consolidate_thresholds (sampleDB 14) 1 none (LLMOutcome.insightList [])
      (fun _ => []) (fun n => n) 0).1 (by decide),
   (check_and_consolidate_thresholds (sampleDB 15) 1 none (LLMOutcome.insightList [])
      (fun _ => []) (fun n => n) 0).2.1 (by decide),
   (check_and_consolidate_thresholds (sampleDB 20) 1 none (LLMOutcome.insightList [])
      (fun _ => []) (fun n => n) 0).2.2 (by decide)⟩

/-- In the positionwise pairing of a list with its image under `f`, the
second component of every pair is `f` of the first. -/
lemma zip_map_snd_eq {α β : Type} (f : α → β) (l : List α) :
    ∀ pr ∈ l.zip (l.map f), pr.2 = f pr.1 := by
  induction l with
  | nil => simp
  | cons a l ih =>
    intro pr h
    simp only [List.map_cons, List.zip_cons_cons, List.mem_cons] at h
    rcases h with rfl | h
    · rfl
    · exact ih pr h

/-- The returned pairs of a search are the selected rows, bumped. -/
lemma search_fst (db : MemoryDB) (uid : Nat) (sim : List ℚ → ℚ)
    (min_importance : ℚ) (limit : Nat) (now : Time) :
    (search_long_term_memories db uid sim min_importance limit now).1
      = (searchRows db uid sim min_importance limit).map
          (fun m => (bumpAccess now m, sim m.embedding)) := rfl

/-- The post-search table is the original table with the selected ids
bumped. -/
lemma search_snd_vm (db : MemoryDB) (uid : Nat) (sim : List ℚ → ℚ)
    (min_importance : ℚ) (limit : Nat) (now : Time) :
    (search_long_term_memories db uid sim min_importance limit now).2.vector_memories
      = db.vector_memories.map (fun m =>
          if ((searchRows db uid sim min_importance limit).map
              (fun s => s.memory_id)).contains m.memory_id
          then bumpAccess now m else m) := rfl

/-- The ids of the returned pairs are the ids of the selected rows (the
bump preserves `memory_id`). -/
lemma search_result_ids (db : MemoryDB) (uid : Nat) (sim : List ℚ → ℚ)
    (min_importance : ℚ) (limit : Nat) (now : Time) :
    (search_long_term_memories db uid sim min_importance limit now).1.map
        (fun q => q.1.memory_id)
      = (searchRows db uid sim min_importance limit).map (fun s => s.memory_id) := by
  rw [search_fst, List.map_map]
  rfl

/-- Claim C7: a similarity search updates access statistics for exactly the
returned records, in the same unit of work as the read: the table keeps
its length; the row at each position is bumped (`access_count + 1`,
`last_accessed = now`) precisely when its id is among the returned ids and
is unchanged otherwise; and every returned record carries the bumped
statistics. -/
theorem search_long_term_memories_bumps_exactly_returned
    (db : MemoryDB) (uid : Nat) (sim : List ℚ → ℚ) (min_importance : ℚ)
    (limit : Nat) (now : Time) :
    (search_long_term_memories db uid sim min_importance limit now).2.vector_memories.length
      = db.vector_memories.length ∧
    (∀ p ∈ (search_long_term_memories db uid sim min_importance limit now).1,
      p.1.last_accessed = some now ∧ 1 ≤ p.1.access_count) ∧
    (∀ pr ∈ db.vector_memories.zip
        (search_long_term_memories db uid sim min_importance limit now).2.vector_memories,
      (((search_long_term_memories db uid sim min_importance limit now).1.map
          (fun q => q.1.memory_id)).contains pr.1.memory_id = true →
        pr.2 = { pr.1 with access_count := pr.1.access_count + 1, last_accessed := some now }) ∧
      (((search_long_term_memories db uid sim min_importance limit now).1.map
          (fun q => q.1.memory_id)).contains pr.1.memory_id = false →
        pr.2 = pr.1)) := by
  refine ⟨?_, ?_, ?_⟩
  · rw [search_snd_vm, List.length_map]
  · intro p hp
    rw [search_fst] at hp
    rcases List.mem_map.1 hp with ⟨m, -, rfl⟩
    exact ⟨rfl, Nat.le_add_left 1 _⟩
  · intro pr hpr
    rw [search_snd_vm] at hpr
    have h2 := zip_map_snd_eq _ db.vector_memories pr hpr
    constructor
    · intro hc
      rw [search_result_ids] at hc
      rw [h2]
      simp only [hc]
      rfl
    · intro hc
      rw [search_result_ids] at hc
      rw [h2]
      simp only [hc]
      rfl

/-- Claim C7, witness: searching user 1 with importance floor 1/2 at time 7
keeps both table rows and stamps every returned record with
`last_accessed = 7` and a positive access count. -/
theorem search_long_term_memories_bumps_exactly_returned_witness :
    (search_long_term_memories vectorDB 1 (fun _ => 0) (1 / 2) 5 7).2.vector_memories.length
      = 2 ∧
    (∀ p ∈ (search_long_term_memories vectorDB 1 (fun _ => 0) (1 / 2) 5 7).1,
      p.1.last_accessed = some 7 ∧ 1 ≤ p.1.access_count) := by
  have h := search_long_term_memories_bumps_exactly_returned vectorDB 1 (fun _ => 0)
    (1 / 2) 5 7
  exact ⟨by rw [h.1]; rfl, h.2.1⟩

/-- Claim C6: the assembled context's `short_term` is the newest-first
fetch reversed — at most `short_term_limit` in-scope non-expired turns in
ascending `turn_number` (chronological) order — and its `long_term` holds
at most `long_term_limit` (memory, similarity) pairs of the user with
importance at least 3/10; a user with no long-term memories gets an empty
`long_term`. -/
theorem get_conversation_context_shape
    (db : MemoryDB) (uid : Nat) (sim : List ℚ → ℚ) (sid? : Option Nat)
    (short_term_limit long_term_limit : Nat) (now : Time) :
    (get_conversation_context db uid sim sid? short_term_limit long_term_limit
        now).1.short_term
      = (get_short_term_memories db uid sid? short_term_limit now).reverse ∧
    (get_conversation_context db uid sim sid? short_term_limit long_term_limit
        now).1.short_term.length ≤ short_term_limit ∧
    (∀ t ∈ (get_conversation_context db uid sim sid? short_term_limit long_term_limit
        now).1.short_term, inScope uid sid? t = true ∧ notExpired now t = true) ∧
    List.Sorted chronological
      (get_conversation_context db uid sim sid? short_term_limit long_term_limit
        now).1.short_term ∧
    (get_conversation_context db uid sim sid? short_term_limit long_term_limit
        now).1.long_term.length ≤ long_term_limit ∧
    (∀ p ∈ (get_conversation_context db uid sim sid? short_term_limit long_term_limit
        now).1.long_term, (3 : ℚ) / 10 ≤ p.1.importance ∧ p.1.user_id = uid) ∧
    ((∀ m ∈ db.vector_memories, m.user_id ≠ uid) →
      (get_conversation_context db uid sim sid? short_term_limit long_term_limit
        now).1.long_term = []) := by
  refine ⟨rfl, ?_, ?_, ?_, ?_, ?_, ?_⟩
  · show (get_short_term_memories db uid sid? short_term_limit now).reverse.length
      ≤ short_term_limit
    rw [List.length_reverse]
    simp only [get_short_term_memories]
    rw [List.length_take]
    exact min_le_left _ _
  · intro t ht
    have ht2 : t ∈ get_short_term_memories db uid sid? short_term_limit now :=
      List.mem_reverse.1 ht
    have ht3 := (List.take_sublist _ _).subset ht2
    have ht4 := (List.mem_insertionSort newestFirst).1 ht3
    have h5 := (List.mem_filter.1 ht4).2
    simp only [Bool.and_eq_true] at h5
    exact h5
  · show List.Sorted chronological
      (get_short_term_memories db uid sid? short_term_limit now).reverse
    have hsorted : List.Sorted newestFirst
        (get_short_term_memories db uid sid? short_term_limit now) :=
      List.Pairwise.sublist (List.take_sublist _ _)
        (List.sorted_insertionSort newestFirst _)
    exact List.pairwise_reverse.2 hsorted
  · show ((searchRows db uid sim ((3 : ℚ) / 10) long_term_limit).map
        (fun m => (bumpAccess now m, sim m.embedding))).length ≤ long_term_limit
    rw [List.length_map]
    simp only [searchRows]
    rw [List.length_take]
    exact min_le_left _ _
  · intro p hp
    have hp2 : p ∈ (searchRows db uid sim ((3 : ℚ) / 10) long_term_limit).map
        (fun m => (bumpAccess now m, sim m.embedding)) := hp
    rcases List.mem_map.1 hp2 with ⟨m, hm, rfl⟩
    have hm2 := (List.take_sublist _ _).subset hm
    have hm3 := (List.mem_insertionSort (moreSimilar sim)).1 hm2
    have h5 := (List.mem_filter.1 hm3).2
    simp only [Bool.and_eq_true] at h5
    refine ⟨of_decide_eq_true h5.2, ?_⟩
    show m.user_id = uid
    exact eq_of_beq h5.1
  · intro hnone
    have hf : db.vector_memories.filter
        (fun m => m.user_id == uid && decide ((3 : ℚ) / 10 ≤ m.importance)) = [] :=
      List.filter_eq_nil_iff.2 (fun m hm => by simp [hnone m hm])
    show ((searchRows db uid sim ((3 : ℚ) / 10) long_term_limit).map
        (fun m => (bumpAccess now m, sim m.embedding))) = []
    simp only [searchRows]
    rw [hf]
    simp

/-- Claim C6, witness: the spec scenario — three turns 0, 1, 2 for user 1,
session 2, and no long-term memories: `short_term` is the reversed fetch,
chronologically sorted, and `long_term` is empty. -/
theorem get_conversation_context_shape_witness :
    (get_conversation_context (sampleDB 3) 1 (fun _ => 0) (some 2) 5 3 0).1.short_term
      = (get_short_term_memories (sampleDB 3) 1 (some 2) 5 0).reverse ∧
    List.Sorted chronological
      (get_conversation_context (sampleDB 3) 1 (fun _ => 0) (some 2) 5 3 0).1.short_term ∧
    (get_conversation_context (sampleDB 3) 1 (fun _ => 0) (some 2) 5 3 0).1.long_term
      = [] := by
  have h := get_conversation_context_shape (sampleDB 3) 1 (fun _ => 0) (some 2) 5 3 0
  exact ⟨h.1, h.2.2.2.1, h.2.2.2.2.2.2 (by decide)⟩

end VietMind
